import Mathlib

/-!
Verification of the quick-trade runner (src/quickTrade.ts) and its
configuration loader (src/config.ts) for the polymarket-trading-bot
repository.

JavaScript numbers that flow through `parseInt` and the clamping
expressions are modelled as `Option Int`: `none` stands for NaN and
`some n` for the finite integer n.  `Math.min` / `Math.max` propagate
NaN, and every comparison involving NaN is false, exactly as in
JavaScript.

The runner is modelled as a function from the configuration and an
oracle for the external collaborator module (market fetch, buy, sell)
to a trace of events: log lines, order calls with their full argument
lists, the sleep, and the process exit.  All claims are settled on
this trace.
-/

/-- A JavaScript number as it appears in this program: NaN (`none`) or a
finite integer (`some n`). -/
abbrev JSNum := Option Int

/-- JavaScript `Math.min` on two numbers: NaN-propagating. -/
def jsMin : JSNum → JSNum → JSNum
  | some a, some b => some (min a b)
  | _, _ => none

/-- JavaScript `Math.max` on two numbers: NaN-propagating. -/
def jsMax : JSNum → JSNum → JSNum
  | some a, some b => some (max a b)
  | _, _ => none

/-- JavaScript `<` on numbers: any comparison with NaN is false. -/
def jsLt : JSNum → JSNum → Bool
  | some a, some b => a < b
  | _, _ => false

/-- JavaScript `<=` on numbers: any comparison with NaN is false. -/
def jsLe : JSNum → JSNum → Bool
  | some a, some b => a ≤ b
  | _, _ => false

/-- Membership of a JavaScript number in the inclusive range [1,99],
under JavaScript comparison semantics (false for NaN). -/
def jsInRange (p : JSNum) : Bool := jsLe (some 1) p && jsLe p (some 99)

/-- How JavaScript string-interpolates a number (`NaN` prints as "NaN"). -/
def jsNumToString : JSNum → String
  | none => "NaN"
  | some n => toString n

/-- Accumulate a list of decimal digit characters into a natural number. -/
def digitsToNat (ds : List Char) : Nat :=
  ds.foldl (fun n ch => 10 * n + (ch.toNat - ('0').toNat)) 0

/-- JavaScript `parseInt(s, 10)`: skip leading whitespace, read an
optional sign, then the longest prefix of decimal digits; NaN (`none`)
when no digit is found. -/
def jsParseInt (s : String) : Option Int :=
  let cs := s.data.dropWhile Char.isWhitespace
  match cs with
  | '-' :: rest =>
      let digits := rest.takeWhile Char.isDigit
      if digits.isEmpty then none else some (-(digitsToNat digits : Int))
  | '+' :: rest =>
      let digits := rest.takeWhile Char.isDigit
      if digits.isEmpty then none else some (digitsToNat digits : Int)
  | _ =>
      let digits := cs.takeWhile Char.isDigit
      if digits.isEmpty then none else some (digitsToNat digits : Int)

/-- The process environment: a partial map from variable names to string
values (`none` = variable unset, JavaScript `undefined`). -/
abbrev Env := String → Option String

/-- Environment update helper for building concrete test environments. -/
def envUpd (e : Env) (k v : String) : Env :=
  fun k2 => if k2 = k then some v else e k2

/-- The empty environment: every variable unset. -/
def envNone : Env := fun _ => none

/-- The configuration constants exported by src/config.ts
(src/unnamed/part_000).  `BOT_SIDE` is cast, not validated, so it is an
arbitrary string; the numeric values went through `parseInt` and may be
NaN. -/
structure Config where
  BOT_SIDE : String
  BOT_PRICE_CENTS : JSNum
  BOT_CONTRACTS : JSNum
  BOT_MAX_MARKETS : JSNum
  BOT_DRY_RUN : Bool
deriving DecidableEq

/-- Fixed series ticker constant from src/config.ts. -/
def BTC_SERIES_TICKER : String := "KXBTC15M"

/-- The configuration loader of src/config.ts: each constant reads one
environment variable with its literal default, `parseInt`-parses the
numeric ones, and compares the dry-run variable against the string
"true". -/
def loadConfig (env : Env) : Config :=
  { BOT_SIDE := (env "KALSHI_BOT_SIDE").getD "yes"
  , BOT_PRICE_CENTS := jsParseInt ((env "KALSHI_BOT_PRICE_CENTS").getD "50")
  , BOT_CONTRACTS := jsParseInt ((env "KALSHI_BOT_CONTRACTS").getD "1")
  , BOT_MAX_MARKETS := jsParseInt ((env "KALSHI_BOT_MAX_MARKETS").getD "1")
  , BOT_DRY_RUN :=
      match env "KALSHI_BOT_DRY_RUN" with
      | some s => s == "true"
      | none => false }

/-- A market record; the runner reads only its ticker. -/
structure Market where
  ticker : String
deriving DecidableEq

/-- Result of an order call: success with an order id, or an error
message (the tagged union tested with `"error" in result`). -/
inductive OrderResult where
  | ok (orderId : String)
  | error (msg : String)
deriving DecidableEq

/-- The execution-options object passed to the order calls
(`{ arbLive: true }` in the runner). -/
structure ExecOptions where
  arbLive : Bool
deriving DecidableEq

/-- Oracle for the external collaborator module (./bot): the markets it
returns and the results of buy and sell calls as functions of the full
argument lists. -/
structure Collab where
  markets : List Market
  buy : String → String → JSNum → JSNum → ExecOptions → OrderResult
  sell : String → String → JSNum → ExecOptions → OrderResult

/-- The fixed inter-order delay of the runner, in milliseconds. -/
def DELAY_MS : Nat := 5000

/-- The effective contract count of the runner:
`Math.max(1, BOT_CONTRACTS)`. -/
def mainCount (cfg : Config) : JSNum := jsMax (some 1) cfg.BOT_CONTRACTS

/-- The effective limit price of the runner:
`Math.max(1, Math.min(99, BOT_PRICE_CENTS))`. -/
def mainPrice (cfg : Config) : JSNum :=
  jsMax (some 1) (jsMin (some 99) cfg.BOT_PRICE_CENTS)

/-- One observable step of the runner: a stdout line, a stderr line, a
buy or sell call with its arguments, the sleep, or the process exit. -/
inductive Event where
  | log (msg : String)
  | logError (msg : String)
  | buyCall (ticker side : String) (count price : JSNum) (opts : ExecOptions)
  | sellCall (ticker side : String) (count : JSNum) (opts : ExecOptions)
  | sleep (ms : Nat)
  | exit (code : Nat)
deriving DecidableEq

/-- The `main` procedure of src/quickTrade.ts as an event trace: fetch
markets, bail out on an empty list, clamp count and price, place the
buy (hard-coded `{ arbLive: true }`), stop on a buy error, sleep, place
the sell (same ticker, side and count, same hard-coded options), stop
on a sell error, otherwise finish with exit code 0. -/
def runMain (cfg : Config) (c : Collab) : List Event :=
  Event.log "[Test Kalshi] Fetching open Bitcoin 15m up/down markets..." ::
  match c.markets with
  | [] =>
      [Event.logError "[Test Kalshi] No open Bitcoin up/down markets found.",
       Event.exit 1]
  | market :: _ =>
      Event.log ("[Test Kalshi] Market: " ++ market.ticker) ::
      Event.log ("[Test Kalshi] Side: " ++ cfg.BOT_SIDE ++
        " (yes=up, no=down), count=" ++ jsNumToString (mainCount cfg) ++
        ", price=" ++ jsNumToString (mainPrice cfg) ++ "c") ::
      Event.log "[Test Kalshi] Placing BUY..." ::
      Event.buyCall market.ticker cfg.BOT_SIDE (mainCount cfg) (mainPrice cfg)
        ⟨true⟩ ::
      match c.buy market.ticker cfg.BOT_SIDE (mainCount cfg) (mainPrice cfg)
        ⟨true⟩ with
      | OrderResult.error e =>
          [Event.logError ("[Test Kalshi] Buy failed: " ++ e), Event.exit 1]
      | OrderResult.ok buyId =>
          Event.log ("[Test Kalshi] Buy placed: " ++ buyId) ::
          Event.log ("[Test Kalshi] Waiting " ++ toString (DELAY_MS / 1000) ++
            "s...") ::
          Event.sleep DELAY_MS ::
          Event.log "[Test Kalshi] Placing SELL to exit..." ::
          Event.sellCall market.ticker cfg.BOT_SIDE (mainCount cfg) ⟨true⟩ ::
          match c.sell market.ticker cfg.BOT_SIDE (mainCount cfg) ⟨true⟩ with
          | OrderResult.error e =>
              [Event.logError ("[Test Kalshi] Sell failed: " ++ e),
               Event.exit 1]
          | OrderResult.ok sellId =>
              [Event.log ("[Test Kalshi] Sell placed: " ++ sellId),
               Event.log "[Test Kalshi] Done.",
               Event.exit 0]

/-- Exit code of a trace: the code of the first exit event. -/
def exitCodeOf : List Event → Option Nat
  | [] => none
  | Event.exit c :: _ => some c
  | _ :: rest => exitCodeOf rest

/-- Whether an event is a buy call. -/
def Event.isBuyCall : Event → Bool
  | Event.buyCall _ _ _ _ _ => true
  | _ => false

/-- Whether an event is a sell call. -/
def Event.isSellCall : Event → Bool
  | Event.sellCall _ _ _ _ => true
  | _ => false

/-- The buy calls of a trace, in order. -/
def buyCallsOf (tr : List Event) : List Event := tr.filter Event.isBuyCall

/-- The sell calls of a trace, in order. -/
def sellCallsOf (tr : List Event) : List Event := tr.filter Event.isSellCall

/-- True when an event, if it is an order call, carries
`arbLive = true` in its execution options. -/
def Event.optsLive : Event → Bool
  | Event.buyCall _ _ _ _ o => o.arbLive
  | Event.sellCall _ _ _ o => o.arbLive
  | _ => true

/-- Every order call of the trace carries `arbLive = true`. -/
def allCallsLive (tr : List Event) : Bool := tr.all Event.optsLive

/-- True when an event, if it is an order call, uses side `s`. -/
def Event.usesSide (s : String) : Event → Bool
  | Event.buyCall _ s2 _ _ _ => s2 == s
  | Event.sellCall _ s2 _ _ => s2 == s
  | _ => true

/-- Every order call of the trace uses side `s`. -/
def allCallsUseSide (tr : List Event) (s : String) : Bool :=
  tr.all (Event.usesSide s)

/-- True when an event, if it is an order call, uses contract count `n`. -/
def Event.usesCount (n : JSNum) : Event → Bool
  | Event.buyCall _ _ c2 _ _ => c2 == n
  | Event.sellCall _ _ c2 _ => c2 == n
  | _ => true

/-- Every order call of the trace uses contract count `n`. -/
def allCallsUseCount (tr : List Event) (n : JSNum) : Bool :=
  tr.all (Event.usesCount n)

/-- Collaborator for the happy-path scenario of the spec: one market
with ticker "ABC", buy succeeds with id "b1", sell with id "s1". -/
def demoCollab : Collab :=
  { markets := [⟨"ABC"⟩]
  , buy := fun _ _ _ _ _ => OrderResult.ok "b1"
  , sell := fun _ _ _ _ => OrderResult.ok "s1" }

/-- Collaborator that returns no open markets. -/
def emptyCollab : Collab :=
  { markets := []
  , buy := fun _ _ _ _ _ => OrderResult.ok "b1"
  , sell := fun _ _ _ _ => OrderResult.ok "s1" }

/-- Collaborator whose buy call fails. -/
def buyFailCollab : Collab :=
  { markets := [⟨"ABC"⟩]
  , buy := fun _ _ _ _ _ => OrderResult.error "boom"
  , sell := fun _ _ _ _ => OrderResult.ok "s1" }

/-- Configuration loaded from an empty environment: all defaults. -/
def cfgDefault : Config := loadConfig envNone

/-- Configuration with the price variable set to "150" (above range). -/
def cfg150 : Config :=
  loadConfig (envUpd envNone "KALSHI_BOT_PRICE_CENTS" "150")

/-- Configuration with non-numeric price and contract variables, so both
parse to NaN. -/
def cfgNaN : Config :=
  loadConfig (envUpd (envUpd envNone "KALSHI_BOT_PRICE_CENTS" "abc")
    "KALSHI_BOT_CONTRACTS" "xyz")

/-- Shared trace lemma: in every run, every order call carries
`arbLive = true`, uses the configured side, and uses the clamped
contract count. -/
theorem runMain_calls (cfg : Config) (c : Collab) :
    allCallsLive (runMain cfg c) = true
    ∧ allCallsUseSide (runMain cfg c) cfg.BOT_SIDE = true
    ∧ allCallsUseCount (runMain cfg c) (mainCount cfg) = true := by
  rcases hm : c.markets with _ | ⟨m, rest⟩
  · simp [runMain, hm, allCallsLive, allCallsUseSide, allCallsUseCount,
      Event.optsLive, Event.usesSide, Event.usesCount]
  · rcases hb : c.buy m.ticker cfg.BOT_SIDE (mainCount cfg) (mainPrice cfg)
      ⟨true⟩ with bid | e
    · rcases hs : c.sell m.ticker cfg.BOT_SIDE (mainCount cfg) ⟨true⟩
        with sid | e2
      all_goals
        simp [runMain, hm, hb, hs, allCallsLive, allCallsUseSide,
          allCallsUseCount, Event.optsLive, Event.usesSide, Event.usesCount]
    · simp [runMain, hm, hb, allCallsLive, allCallsUseSide,
        allCallsUseCount, Event.optsLive, Event.usesSide, Event.usesCount]

/-- Configuration loaded with only the dry-run variable set to "true". -/
def cfgDryTrue : Config := loadConfig (envUpd envNone "KALSHI_BOT_DRY_RUN" "true")

/-- C1: the runner never reads the dry-run flag, so two runs whose
configurations agree on everything except `BOT_DRY_RUN` produce
identical traces, and every buy and sell call in any run carries the
hard-coded execution options `arbLive = true`. -/
theorem dryRun_no_effect :
    (∀ (cfg1 cfg2 : Config) (c : Collab),
      cfg1.BOT_SIDE = cfg2.BOT_SIDE →
      cfg1.BOT_PRICE_CENTS = cfg2.BOT_PRICE_CENTS →
      cfg1.BOT_CONTRACTS = cfg2.BOT_CONTRACTS →
      cfg1.BOT_MAX_MARKETS = cfg2.BOT_MAX_MARKETS →
      runMain cfg1 c = runMain cfg2 c)
    ∧ (∀ (cfg : Config) (c : Collab), allCallsLive (runMain cfg c) = true) := by
  constructor
  · intro cfg1 cfg2 c h1 h2 h3 _h4
    simp only [runMain, mainCount, mainPrice, h1, h2, h3]
  · intro cfg c
    exact (runMain_calls cfg c).1

/-- Witness for C1: the default configuration and the one with
`KALSHI_BOT_DRY_RUN=true` differ exactly in the dry-run flag, yet yield
the same trace on the demo collaborator, and all calls are live. -/
theorem dryRun_no_effect_witness :
    cfgDryTrue.BOT_DRY_RUN = true ∧ cfgDefault.BOT_DRY_RUN = false
    ∧ runMain cfgDryTrue demoCollab = runMain cfgDefault demoCollab
    ∧ allCallsLive (runMain cfgDefault demoCollab) = true :=
  ⟨by decide, by decide,
   dryRun_no_effect.1 cfgDryTrue cfgDefault demoCollab (by decide) (by decide)
     (by decide) (by decide),
   dryRun_no_effect.2 cfgDefault demoCollab⟩

/-- C2: when the market fetch returns an empty list, the trace contains
no buy call and no sell call and the process exits with status 1. -/
theorem noMarkets_exit1 (cfg : Config) (c : Collab) (h : c.markets = []) :
    buyCallsOf (runMain cfg c) = []
    ∧ sellCallsOf (runMain cfg c) = []
    ∧ exitCodeOf (runMain cfg c) = some 1 := by
  refine ⟨?_, ?_, ?_⟩ <;>
    simp [runMain, h, buyCallsOf, sellCallsOf, exitCodeOf,
      Event.isBuyCall, Event.isSellCall]

/-- Witness for C2 at the collaborator with no markets. -/
theorem noMarkets_exit1_witness :
    buyCallsOf (runMain cfgDefault emptyCollab) = []
    ∧ sellCallsOf (runMain cfgDefault emptyCollab) = []
    ∧ exitCodeOf (runMain cfgDefault emptyCollab) = some 1 :=
  noMarkets_exit1 cfgDefault emptyCollab rfl

/-- C3: if the buy call returns an error the trace contains no sell call
and exits with status 1; conversely any run containing a sell call had
a buy call that returned success. -/
theorem buyFail_no_sell :
    (∀ (cfg : Config) (c : Collab) (m : Market) (rest : List Market)
      (e : String),
      c.markets = m :: rest →
      c.buy m.ticker cfg.BOT_SIDE (mainCount cfg) (mainPrice cfg) ⟨true⟩
        = OrderResult.error e →
      sellCallsOf (runMain cfg c) = [] ∧ exitCodeOf (runMain cfg c) = some 1)
    ∧ (∀ (cfg : Config) (c : Collab),
      sellCallsOf (runMain cfg c) ≠ [] →
      ∃ m rest bid, c.markets = m :: rest ∧
        c.buy m.ticker cfg.BOT_SIDE (mainCount cfg) (mainPrice cfg) ⟨true⟩
          = OrderResult.ok bid) := by
  constructor
  · intro cfg c m rest e hm hb
    refine ⟨?_, ?_⟩ <;>
      simp [runMain, hm, hb, sellCallsOf, exitCodeOf, Event.isSellCall]
  · intro cfg c hne
    rcases hm : c.markets with _ | ⟨m, rest⟩
    · exfalso; apply hne
      simp [runMain, hm, sellCallsOf, Event.isSellCall]
    · rcases hb : c.buy m.ticker cfg.BOT_SIDE (mainCount cfg) (mainPrice cfg)
        ⟨true⟩ with bid | e
      · exact ⟨m, rest, bid, rfl, hb⟩
      · exfalso; apply hne
        simp [runMain, hm, hb, sellCallsOf, Event.isSellCall]

/-- Witness for C3 at a collaborator whose buy call fails. -/
theorem buyFail_no_sell_witness :
    sellCallsOf (runMain cfgDefault buyFailCollab) = []
    ∧ exitCodeOf (runMain cfgDefault buyFailCollab) = some 1 :=
  buyFail_no_sell.1 cfgDefault buyFailCollab ⟨"ABC"⟩ [] "boom" rfl rfl

/-- C4: when the buy call succeeds the trace contains exactly one sell
call, with the same ticker, side, and clamped count as the buy call,
and it sits at position 9, after the 5000 ms sleep at position 7
(whatever the sell result is). -/
theorem buySuccess_one_sell (cfg : Config) (c : Collab) (m : Market)
    (rest : List Market) (bid : String)
    (hm : c.markets = m :: rest)
    (hb : c.buy m.ticker cfg.BOT_SIDE (mainCount cfg) (mainPrice cfg) ⟨true⟩
      = OrderResult.ok bid) :
    DELAY_MS = 5000
    ∧ sellCallsOf (runMain cfg c)
      = [Event.sellCall m.ticker cfg.BOT_SIDE (mainCount cfg) ⟨true⟩]
    ∧ (runMain cfg c).get? 4
      = some (Event.buyCall m.ticker cfg.BOT_SIDE (mainCount cfg)
          (mainPrice cfg) ⟨true⟩)
    ∧ (runMain cfg c).get? 7 = some (Event.sleep DELAY_MS)
    ∧ (runMain cfg c).get? 9
      = some (Event.sellCall m.ticker cfg.BOT_SIDE (mainCount cfg) ⟨true⟩) := by
  rcases hs : c.sell m.ticker cfg.BOT_SIDE (mainCount cfg) ⟨true⟩ with sid | e
  all_goals
    refine ⟨rfl, ?_, ?_, ?_, ?_⟩ <;>
      simp [runMain, hm, hb, hs, sellCallsOf, Event.isSellCall, List.get?]

/-- Witness for C4 on the happy-path collaborator. -/
theorem buySuccess_one_sell_witness :
    DELAY_MS = 5000
    ∧ sellCallsOf (runMain cfgDefault demoCollab)
      = [Event.sellCall "ABC" cfgDefault.BOT_SIDE (mainCount cfgDefault)
          ⟨true⟩]
    ∧ (runMain cfgDefault demoCollab).get? 4
      = some (Event.buyCall "ABC" cfgDefault.BOT_SIDE (mainCount cfgDefault)
          (mainPrice cfgDefault) ⟨true⟩)
    ∧ (runMain cfgDefault demoCollab).get? 7 = some (Event.sleep DELAY_MS)
    ∧ (runMain cfgDefault demoCollab).get? 9
      = some (Event.sellCall "ABC" cfgDefault.BOT_SIDE (mainCount cfgDefault)
          ⟨true⟩) :=
  buySuccess_one_sell cfgDefault demoCollab ⟨"ABC"⟩ [] "b1" rfl rfl

/-- C5: when both order calls succeed the run exits with status 0, the
buy order id is logged at position 5 and the sell order id at position
10, so the buy line precedes the sell line. -/
theorem bothSucceed_exit0 (cfg : Config) (c : Collab) (m : Market)
    (rest : List Market) (bid sid : String)
    (hm : c.markets = m :: rest)
    (hb : c.buy m.ticker cfg.BOT_SIDE (mainCount cfg) (mainPrice cfg) ⟨true⟩
      = OrderResult.ok bid)
    (hs : c.sell m.ticker cfg.BOT_SIDE (mainCount cfg) ⟨true⟩
      = OrderResult.ok sid) :
    exitCodeOf (runMain cfg c) = some 0
    ∧ (runMain cfg c).get? 5
      = some (Event.log ("[Test Kalshi] Buy placed: " ++ bid))
    ∧ (runMain cfg c).get? 10
      = some (Event.log ("[Test Kalshi] Sell placed: " ++ sid)) := by
  refine ⟨?_, ?_, ?_⟩ <;>
    simp [runMain, hm, hb, hs, exitCodeOf, List.get?]

/-- Witness for C5: the spec scenario with market "ABC", buy id "b1",
sell id "s1" exits 0 and logs "Buy placed: b1" before
"Sell placed: s1". -/
theorem bothSucceed_exit0_witness :
    exitCodeOf (runMain cfgDefault demoCollab) = some 0
    ∧ (runMain cfgDefault demoCollab).get? 5
      = some (Event.log "[Test Kalshi] Buy placed: b1")
    ∧ (runMain cfgDefault demoCollab).get? 10
      = some (Event.log "[Test Kalshi] Sell placed: s1") :=
  bothSucceed_exit0 cfgDefault demoCollab ⟨"ABC"⟩ [] "b1" "s1" rfl rfl rfl

/-- Counterexample to C6 as stated: a configured price that fails to
parse is NaN, which is outside [1,99] under JavaScript comparisons, yet
the clamp `Math.max(1, Math.min(99, price))` yields NaN again, so the
effective price is not in [1,99]. -/
theorem price_clamp_counterexample :
    jsInRange cfgNaN.BOT_PRICE_CENTS = false
    ∧ mainPrice cfgNaN = none
    ∧ jsInRange (mainPrice cfgNaN) = false := by
  refine ⟨rfl, rfl, rfl⟩

/-- C6 (amended to non-NaN prices): for every finite configured price
outside [1,99] the effective price is clamped into [1,99], values above
99 becoming 99 and values below 1 becoming 1. -/
theorem price_clamped (cfg : Config) (p : Int)
    (hp : cfg.BOT_PRICE_CENTS = some p) (_hout : p < 1 ∨ 99 < p) :
    jsInRange (mainPrice cfg) = true
    ∧ (99 < p → mainPrice cfg = some 99)
    ∧ (p < 1 → mainPrice cfg = some 1) := by
  refine ⟨?_, fun hgt => ?_, fun hlt => ?_⟩ <;>
    simp [mainPrice, hp, jsMin, jsMax, jsInRange, jsLe] <;> omega

/-- Witness for C6 (amended): a configured price of 150 is clamped to an
effective price of 99. -/
theorem price_clamped_witness :
    cfg150.BOT_PRICE_CENTS = some 150
    ∧ jsInRange (mainPrice cfg150) = true
    ∧ mainPrice cfg150 = some 99 :=
  ⟨by decide,
   (price_clamped cfg150 150 (by decide) (Or.inr (by decide))).1,
   (price_clamped cfg150 150 (by decide) (Or.inr (by decide))).2.1
     (by decide)⟩

/-- Configuration with the contract-count variable set to "0". -/
def cfgZero : Config := loadConfig (envUpd envNone "KALSHI_BOT_CONTRACTS" "0")

/-- C7: for every configured contract count strictly below 1 (under
JavaScript comparison, which excludes NaN), the effective count is
exactly 1 and every buy and sell call of the run uses count 1. -/
theorem count_clamped (cfg : Config) (c : Collab)
    (h : jsLt cfg.BOT_CONTRACTS (some 1) = true) :
    mainCount cfg = some 1
    ∧ allCallsUseCount (runMain cfg c) (some 1) = true := by
  have hc : mainCount cfg = some 1 := by
    rcases hn : cfg.BOT_CONTRACTS with _ | n
    · rw [hn] at h; simp [jsLt] at h
    · rw [hn] at h
      simp only [jsLt, decide_eq_true_eq] at h
      simp only [mainCount, hn, jsMax, Option.some_inj]
      omega
  refine ⟨hc, ?_⟩
  have h2 := (runMain_calls cfg c).2.2
  rwa [hc] at h2

/-- Witness for C7: a configured count of 0 yields effective count 1 in
every order call of the happy-path run. -/
theorem count_clamped_witness :
    jsLt cfgZero.BOT_CONTRACTS (some 1) = true
    ∧ mainCount cfgZero = some 1
    ∧ allCallsUseCount (runMain cfgZero demoCollab) (some 1) = true :=
  ⟨by decide,
   (count_clamped cfgZero demoCollab (by decide)).1,
   (count_clamped cfgZero demoCollab (by decide)).2⟩

/-- C8: with an unset variable the loader yields the documented default
(side "yes", price 50, contracts 1, max markets 1, dry-run false); with
a set variable it only parses (string passthrough for the side,
`parseInt` for the numeric values, string comparison with "true" for
the dry-run flag), with no range validation. -/
theorem config_defaults :
    (∀ env : Env, env "KALSHI_BOT_SIDE" = none →
      (loadConfig env).BOT_SIDE = "yes")
    ∧ (∀ env : Env, env "KALSHI_BOT_PRICE_CENTS" = none →
      (loadConfig env).BOT_PRICE_CENTS = some 50)
    ∧ (∀ env : Env, env "KALSHI_BOT_CONTRACTS" = none →
      (loadConfig env).BOT_CONTRACTS = some 1)
    ∧ (∀ env : Env, env "KALSHI_BOT_MAX_MARKETS" = none →
      (loadConfig env).BOT_MAX_MARKETS = some 1)
    ∧ (∀ env : Env, env "KALSHI_BOT_DRY_RUN" = none →
      (loadConfig env).BOT_DRY_RUN = false)
    ∧ (∀ (env : Env) (s : String), env "KALSHI_BOT_SIDE" = some s →
      (loadConfig env).BOT_SIDE = s)
    ∧ (∀ (env : Env) (s : String), env "KALSHI_BOT_PRICE_CENTS" = some s →
      (loadConfig env).BOT_PRICE_CENTS = jsParseInt s)
    ∧ (∀ (env : Env) (s : String), env "KALSHI_BOT_CONTRACTS" = some s →
      (loadConfig env).BOT_CONTRACTS = jsParseInt s)
    ∧ (∀ (env : Env) (s : String), env "KALSHI_BOT_MAX_MARKETS" = some s →
      (loadConfig env).BOT_MAX_MARKETS = jsParseInt s)
    ∧ (∀ (env : Env) (s : String), env "KALSHI_BOT_DRY_RUN" = some s →
      (loadConfig env).BOT_DRY_RUN = (s == "true")) := by
  refine ⟨fun env h => ?_, fun env h => ?_, fun env h => ?_, fun env h => ?_,
    fun env h => ?_, fun env s h => ?_, fun env s h => ?_, fun env s h => ?_,
    fun env s h => ?_, fun env s h => ?_⟩ <;>
    simp [loadConfig, h] <;> decide

/-- Witness for C8: the empty environment yields all defaults, and a set
price variable of "150" passes through `parseInt` unvalidated. -/
theorem config_defaults_witness :
    (loadConfig envNone).BOT_SIDE = "yes"
    ∧ (loadConfig envNone).BOT_PRICE_CENTS = some 50
    ∧ (loadConfig envNone).BOT_CONTRACTS = some 1
    ∧ (loadConfig envNone).BOT_MAX_MARKETS = some 1
    ∧ (loadConfig envNone).BOT_DRY_RUN = false
    ∧ cfg150.BOT_PRICE_CENTS = jsParseInt "150" :=
  ⟨config_defaults.1 envNone rfl, config_defaults.2.1 envNone rfl,
   config_defaults.2.2.1 envNone rfl, config_defaults.2.2.2.1 envNone rfl,
   config_defaults.2.2.2.2.1 envNone rfl,
   config_defaults.2.2.2.2.2.2.1 (envUpd envNone "KALSHI_BOT_PRICE_CENTS" "150")
     "150" (by decide)⟩

/-- C9: a non-numeric price variable parses to NaN, the clamp yields NaN
again so the effective price is outside [1,99], the same happens to the
contract count, and the buy call of a run receives those NaN values. -/
theorem nan_reaches_buy_call :
    cfgNaN.BOT_PRICE_CENTS = none
    ∧ mainPrice cfgNaN = none
    ∧ jsInRange (mainPrice cfgNaN) = false
    ∧ cfgNaN.BOT_CONTRACTS = none
    ∧ mainCount cfgNaN = none
    ∧ (runMain cfgNaN demoCollab).get? 4
      = some (Event.buyCall "ABC" "yes" none none ⟨true⟩) := by
  refine ⟨rfl, rfl, rfl, rfl, rfl, rfl⟩

/-- C10: the loader returns the side variable unchanged, without
validating it against "yes"/"no", and every buy and sell call of a run
uses that string as its side argument. -/
theorem side_passthrough (env : Env) (s : String) (c : Collab)
    (h : env "KALSHI_BOT_SIDE" = some s) :
    (loadConfig env).BOT_SIDE = s
    ∧ allCallsUseSide (runMain (loadConfig env) c) s = true := by
  have hside : (loadConfig env).BOT_SIDE = s := by simp [loadConfig, h]
  refine ⟨hside, ?_⟩
  have h2 := (runMain_calls (loadConfig env) c).2.1
  rwa [hside] at h2

/-- Witness for C10: the side string "maybe", which is neither "yes" nor
"no", is passed through the loader and used by every order call. -/
theorem side_passthrough_witness :
    ("maybe" ≠ "yes" ∧ "maybe" ≠ "no")
    ∧ (loadConfig (envUpd envNone "KALSHI_BOT_SIDE" "maybe")).BOT_SIDE
      = "maybe"
    ∧ allCallsUseSide
        (runMain (loadConfig (envUpd envNone "KALSHI_BOT_SIDE" "maybe"))
          demoCollab) "maybe" = true :=
  ⟨by decide,
   side_passthrough (envUpd envNone "KALSHI_BOT_SIDE" "maybe") "maybe"
     demoCollab (by decide)⟩
